import Mathlib

/-!
# INA226 power-monitor driver — a shallow embedding

Definitions are translated from `src/Core/Src/driver_ina226.c` (the INA226
driver vendored in the PDM repository) and `src/Core/Inc/driver_ina226.h`.

Modelling conventions:
* 16-bit device registers are `ℕ` values (< 2 ^ 16 where it matters); the C
  bitwise operations map to `&&&`, `|||`, `<<<`, `>>>` on `ℕ`, with the
  `~mask` complements written out as their 16-bit literal values.
* C `double`/`float` arithmetic is modelled over `ℚ`.  Every decimal literal
  of the source (`0.08192`, `0.00512`, `400.0`, `1.25`, `25.0`, `1000.0`) is
  used at its exact decimal value; where the binary rounding of a literal is
  observable (the `0.000001f` threshold of `ina226_calculate_calibration`)
  the exact rational value of the float constant is spelled out instead.
* The I2C transport is assumed to succeed: every transport-failure branch of
  the C returns an error code without touching the modelled state, and none
  of the verified claims concerns those branches.  The status/mask register
  is time-varying on the device, so a measurement read receives an oracle
  `mask : ℕ → ℕ` giving the 16-bit value returned by the n-th mask-register
  read performed by that one operation (read 0 is the initial overflow
  check; reads 1, 2, … happen inside the poll loop).
-/

namespace INA226

/-- `#define INA226_READ_TIMEOUT 1000` (driver_ina226.h line 63). -/
def INA226_READ_TIMEOUT : ℕ := 1000

/-- `ina226_mode_t` enum values (driver_ina226.h lines 130-137). -/
def INA226_MODE_POWER_DOWN : ℕ := 0x0

/-- triggered shunt-voltage mode. -/
def INA226_MODE_SHUNT_VOLTAGE_TRIGGERED : ℕ := 0x1

/-- triggered bus-voltage mode. -/
def INA226_MODE_BUS_VOLTAGE_TRIGGERED : ℕ := 0x2

/-- triggered shunt-and-bus mode. -/
def INA226_MODE_SHUNT_BUS_VOLTAGE_TRIGGERED : ℕ := 0x3

/-- `ina226_status_t` enum values (driver_ina226.h lines 145-149): each
status code equals the number of the mask-register bit that signals it. -/
def INA226_STATUS_SHUNT_VOLTAGE_OVER_VOLTAGE : ℕ := 15

/-- shunt-voltage under-voltage alert status. -/
def INA226_STATUS_SHUNT_VOLTAGE_UNDER_VOLTAGE : ℕ := 14

/-- bus-voltage over-voltage alert status. -/
def INA226_STATUS_BUS_VOLTAGE_OVER_VOLTAGE : ℕ := 13

/-- bus-voltage under-voltage alert status. -/
def INA226_STATUS_BUS_VOLTAGE_UNDER_VOLTAGE : ℕ := 12

/-- power-over-limit alert status. -/
def INA226_STATUS_POWER_OVER_LIMIT : ℕ := 11

/-- The mutable handle fields the modelled operations touch, together with
the device's configuration register (the one device register the driver
read-modify-writes and whose value the claims track).  `inited` is
`handle->inited`, `trigger` is `handle->trigger`, `r` is `handle->r`
(ohms, a C double), `current_lsb` is `handle->current_lsb`. -/
structure HState where
  inited : Bool
  conf : ℕ
  trigger : Bool
  r : ℚ
  current_lsb : ℚ
deriving DecidableEq

/-- C cast of a real (`float`/`double`) value to `uint16_t`: the value is
truncated toward zero, and if the truncated value is outside the 16-bit
unsigned range the conversion is undefined behaviour (C11 6.3.1.4p1),
modelled as `none`.  For `q` in `(-1, 0]` truncation yields 0, which is
representable, so the cast is defined exactly on `(-1, 65536)`; there
`Int.toNat ⌊q⌋` equals truncation toward zero. -/
def castToUint16 (q : ℚ) : Option ℕ :=
  if -1 < q ∧ q < 65536 then some (Int.toNat ⌊q⌋) else none

/-- `int16_t` reinterpretation of a 16-bit register value (the C union in
`ina226_read_shunt_voltage` / `ina226_read_current`). -/
def toInt16 (n : ℕ) : ℤ :=
  if n % 65536 < 32768 then (n % 65536 : ℤ) else (n % 65536 : ℤ) - 65536

/-- Register transform of `ina226_set_average_mode` (driver_ina226.c lines
272-273): `prev &= ~(0x7 << 9); prev |= mode << 9;` — on a 16-bit value
`~(0x7 << 9)` is `0xF1FF`.  The surrounding read-modify-write transport is
assumed successful. -/
def ina226_set_average_mode (prev mode : ℕ) : ℕ :=
  (prev &&& 0xF1FF) ||| (mode <<< 9)

/-- `ina226_get_average_mode` (line 310): `(prev >> 9) & 0x07`. -/
def ina226_get_average_mode (prev : ℕ) : ℕ :=
  (prev >>> 9) &&& 0x7

/-- `ina226_set_bus_voltage_conversion_time` (lines 347-348):
`prev &= ~(7 << 6); prev |= t << 6;` — `~(7 << 6)` is `0xFE3F` on 16 bits. -/
def ina226_set_bus_voltage_conversion_time (prev t : ℕ) : ℕ :=
  (prev &&& 0xFE3F) ||| (t <<< 6)

/-- `ina226_get_bus_voltage_conversion_time` (line 385): `(prev >> 6) & 0x07`. -/
def ina226_get_bus_voltage_conversion_time (prev : ℕ) : ℕ :=
  (prev >>> 6) &&& 0x7

/-- `ina226_set_shunt_voltage_conversion_time` (lines 422-423):
`prev &= ~(7 << 3); prev |= t << 3;` — `~(7 << 3)` is `0xFFC7` on 16 bits. -/
def ina226_set_shunt_voltage_conversion_time (prev t : ℕ) : ℕ :=
  (prev &&& 0xFFC7) ||| (t <<< 3)

/-- `ina226_get_shunt_voltage_conversion_time` (line 460): `(prev >> 3) & 0x07`. -/
def ina226_get_shunt_voltage_conversion_time (prev : ℕ) : ℕ :=
  (prev >>> 3) &&& 0x7

/-- `ina226_set_mode` (lines 476-518): after the initialization gate it
read-modify-writes the mode field (`prev &= ~(0x7 << 0); prev |= mode`,
mask `0xFFF8` on 16 bits) and then sets `handle->trigger` to 1 exactly when
the new mode is one of the three triggered variants, 0 otherwise.  Returns
(status, new state); transport assumed successful. -/
def ina226_set_mode (s : HState) (mode : ℕ) : ℕ × HState :=
  if s.inited then
    (0, { s with
          conf := (s.conf &&& 0xFFF8) ||| mode,
          trigger := decide (mode = INA226_MODE_SHUNT_VOLTAGE_TRIGGERED) ||
                     decide (mode = INA226_MODE_BUS_VOLTAGE_TRIGGERED) ||
                     decide (mode = INA226_MODE_SHUNT_BUS_VOLTAGE_TRIGGERED) })
  else (3, s)

/-- The bounded poll loop shared (textually repeated) by the four
measurement reads (e.g. driver_ina226.c lines 649-665):
`for (i = 0; i < timeout; i++) { read mask; if (ready) break;
delay_ms(1); timeout--; }`.  `mask k` is the value of the k-th
mask-register read of the surrounding operation, `k` the index of the next
read, `i` and the last argument the C variables `i` and `timeout`.
Result: (final value of `timeout`, number of `delay_ms(1)` calls, number of
mask reads performed by the loop).  Note the loop condition compares the
incrementing `i` against the simultaneously decremented `timeout`. -/
def pollLoop (mask : ℕ → ℕ) : ℕ → ℕ → ℕ → ℕ × ℕ × ℕ
  | _, _, 0 => (0, 0, 0)
  | k, i, t + 1 =>
    if i < t + 1 then
      if (mask k).testBit 3 then (t + 1, 0, 1)
      else
        let r := pollLoop mask (k + 1) (i + 1) t
        (r.1, r.2.1 + 1, r.2.2 + 1)
    else (t + 1, 0, 0)

/-- Outcome of the conversion-synchronisation prologue of a measurement
read: the status code (0 = proceed to the measurement register), the new
`handle->trigger`, and the observable wait effort (delay calls / poll
reads). -/
structure SyncResult where
  status : ℕ
  trigger : Bool
  delays : ℕ
  polls : ℕ
deriving DecidableEq

/-- The conversion-synchronisation prologue appearing verbatim in each of
`ina226_read_shunt_voltage`, `ina226_read_bus_voltage`,
`ina226_read_current` and `ina226_read_power` (e.g. lines 629-674): read
the mask register once; fail with 4 if the math-overflow bit (bit 2) is
set; in trigger mode, if the conversion-ready bit (bit 3) of that first
read is clear, run the bounded poll and fail with 5 when the final
`timeout` is 0; clear `handle->trigger` when the wait ends without an
error return. -/
def a_wait_ready (trigger : Bool) (mask : ℕ → ℕ) : SyncResult :=
  let prev := mask 0
  if prev.testBit 2 then ⟨4, trigger, 0, 0⟩
  else if trigger then
    if prev.testBit 3 then ⟨0, false, 0, 0⟩
    else
      let r := pollLoop mask 1 0 INA226_READ_TIMEOUT
      if r.1 = 0 then ⟨5, trigger, r.2.1, r.2.2⟩
      else ⟨0, false, r.2.1, r.2.2⟩
  else ⟨0, false, 0, 0⟩

/-- Result of one measurement-read operation: status code, handle state
after the call, wait effort, and the raw plus converted measurement (0
when the operation failed before reaching the measurement register). -/
structure ReadResult where
  status : ℕ
  state : HState
  delays : ℕ
  polls : ℕ
  raw : ℤ
  data : ℚ
deriving DecidableEq

/-- `ina226_read_shunt_voltage` (lines 610-687): initialization gate, the
synchronisation prologue, then the shunt-voltage register (`meas`, via the
int16 union) and `*mV = raw / 400.0f`. -/
def ina226_read_shunt_voltage (s : HState) (mask : ℕ → ℕ) (meas : ℕ) : ReadResult :=
  if s.inited then
    let w := a_wait_ready s.trigger mask
    if w.status = 0 then
      ⟨0, { s with trigger := w.trigger }, w.delays, w.polls,
        toInt16 meas, (toInt16 meas : ℚ) / 400⟩
    else ⟨w.status, { s with trigger := w.trigger }, w.delays, w.polls, 0, 0⟩
  else ⟨3, s, 0, 0, 0, 0⟩

/-- `ina226_read_bus_voltage` (lines 703-774): same protocol, unsigned raw,
`*mV = raw * 1.25f`. -/
def ina226_read_bus_voltage (s : HState) (mask : ℕ → ℕ) (meas : ℕ) : ReadResult :=
  if s.inited then
    let w := a_wait_ready s.trigger mask
    if w.status = 0 then
      ⟨0, { s with trigger := w.trigger }, w.delays, w.polls,
        (meas % 65536 : ℕ), (meas % 65536 : ℕ) * 1.25⟩
    else ⟨w.status, { s with trigger := w.trigger }, w.delays, w.polls, 0, 0⟩
  else ⟨3, s, 0, 0, 0, 0⟩

/-- `ina226_read_current` (lines 790-867): same protocol, int16 raw,
`*mA = raw * handle->current_lsb * 1000`. -/
def ina226_read_current (s : HState) (mask : ℕ → ℕ) (meas : ℕ) : ReadResult :=
  if s.inited then
    let w := a_wait_ready s.trigger mask
    if w.status = 0 then
      ⟨0, { s with trigger := w.trigger }, w.delays, w.polls,
        toInt16 meas, (toInt16 meas : ℚ) * s.current_lsb * 1000⟩
    else ⟨w.status, { s with trigger := w.trigger }, w.delays, w.polls, 0, 0⟩
  else ⟨3, s, 0, 0, 0, 0⟩

/-- `ina226_read_power` (lines 883-954): same protocol, unsigned raw,
`*mW = raw * handle->current_lsb * 25.0 * 1000.0`. -/
def ina226_read_power (s : HState) (mask : ℕ → ℕ) (meas : ℕ) : ReadResult :=
  if s.inited then
    let w := a_wait_ready s.trigger mask
    if w.status = 0 then
      ⟨0, { s with trigger := w.trigger }, w.delays, w.polls,
        (meas % 65536 : ℕ), (meas % 65536 : ℕ) * s.current_lsb * 25 * 1000⟩
    else ⟨w.status, { s with trigger := w.trigger }, w.delays, w.polls, 0, 0⟩
  else ⟨3, s, 0, 0, 0, 0⟩

/-- `ina226_irq_handler` (lines 1636-1701), as a function of the
successfully read mask-register value on an initialized handle: if the
alert-function flag (bit 4) is set, walk the if/else-if chain of the five
alert-condition bits from bit 15 down to bit 11 and invoke the receive
callback for the first set bit.  `ina226_init` verifies
`receive_callback != NULL`, so the callback is present on any initialized
handle; the result is the list of callback invocations (each entry an
`ina226_status_t` value). -/
def ina226_irq_handler (prev : ℕ) : List ℕ :=
  if prev.testBit 4 then
    if prev.testBit 15 then [INA226_STATUS_SHUNT_VOLTAGE_OVER_VOLTAGE]
    else if prev.testBit 14 then [INA226_STATUS_SHUNT_VOLTAGE_UNDER_VOLTAGE]
    else if prev.testBit 13 then [INA226_STATUS_BUS_VOLTAGE_OVER_VOLTAGE]
    else if prev.testBit 12 then [INA226_STATUS_BUS_VOLTAGE_UNDER_VOLTAGE]
    else if prev.testBit 11 then [INA226_STATUS_POWER_OVER_LIMIT]
    else []
  else []

/-- The five alert-condition bit positions in the priority order of the
spec (§4.4): shunt-over (15) > shunt-under (14) > bus-over (13) >
bus-under (12) > power-over-limit (11). -/
def alertPriority : List ℕ := [15, 14, 13, 12, 11]

/-- The alert-condition bits set in a mask value, listed in descending
priority. -/
def activeAlerts (prev : ℕ) : List ℕ :=
  alertPriority.filter (fun b => prev.testBit b)

/-- `ina226_deinit` (lines 1836-1874) with successful transport:
initialization gate, read the configuration register, `prev &= ~(0x07)`
(power-down mode), write it back, then `iic_deinit()`.  Returns (status,
new state, transport closed).  The C function contains no assignment to
`handle->inited`, so the flag is left as it was. -/
def ina226_deinit (s : HState) : ℕ × HState × Bool :=
  if s.inited then (0, { s with conf := s.conf &&& 0xFFF8 }, true)
  else (3, s, false)

/-- `ina226_calculate_calibration` (lines 1003-1027): after the gates,
reject `handle->r` with status 4 when `r >= -0.000001f && r <= 0.000001f`
— the float literal `0.000001f` has the exact value 8796093 / 2 ^ 43
(2 ^ 43 = 8796093022208), and the comparison promotes it to double
unchanged.  Otherwise store
`current_lsb = 0.08192 / r / pow(2, 15)` on the handle and output
`(uint16_t)(0.00512 / (0.08192 / pow(2, 15)))`.  Returns (status, new
state, the value written to `*calibration` — `none` when untouched). -/
def ina226_calculate_calibration (s : HState) : ℕ × HState × Option ℕ :=
  if s.inited then
    if -(8796093 / 8796093022208 : ℚ) ≤ s.r ∧ s.r ≤ 8796093 / 8796093022208 then
      (4, s, none)
    else
      (0, { s with current_lsb := 0.08192 / s.r / 2 ^ 15 },
        castToUint16 (0.00512 / (0.08192 / 2 ^ 15)))
  else (3, s, none)

/-- `ina226_shunt_voltage_convert_to_register` (line 1486):
`*reg = (uint16_t)(mV * 400.0f)`.  The C function takes the handle only
for the null/initialization gate and reads no handle state; the gate is
elided. -/
def ina226_shunt_voltage_convert_to_register (mV : ℚ) : Option ℕ :=
  castToUint16 (mV * 400)

/-- `ina226_shunt_voltage_convert_to_data` (line 1513):
`*mV = (float)(reg) / 400.0f` — the `uint16_t` argument is converted
unsigned. -/
def ina226_shunt_voltage_convert_to_data (reg : ℕ) : ℚ :=
  (reg : ℚ) / 400

/-- `ina226_bus_voltage_convert_to_register` (line 1540):
`*reg = (uint16_t)(mV / 1.25f)`. -/
def ina226_bus_voltage_convert_to_register (mV : ℚ) : Option ℕ :=
  castToUint16 (mV / 1.25)

/-- `ina226_bus_voltage_convert_to_data` (line 1567):
`*mV = (float)(reg) * 1.25f`. -/
def ina226_bus_voltage_convert_to_data (reg : ℕ) : ℚ :=
  (reg : ℚ) * 1.25

/-- `ina226_power_convert_to_data` (line 1621):
`*mW = reg * handle->current_lsb * 25.0 * 1000.0`. -/
def ina226_power_convert_to_data (current_lsb : ℚ) (reg : ℕ) : ℚ :=
  (reg : ℚ) * current_lsb * 25 * 1000

/-- One driver operation of the mode/trigger protocol on a handle: a
successful `ina226_set_mode` with a valid mode enum value, or any of the
four measurement reads (with arbitrary mask-register history and
measurement value).  Failed operations leave the modelled state unchanged
and are covered by reflexivity of `Reachable`. -/
inductive Step : HState → HState → Prop
  | set_mode (s : HState) (m : ℕ) (hm : m < 8) :
      Step s (ina226_set_mode s m).2
  | read_shunt (s : HState) (mask : ℕ → ℕ) (meas : ℕ) :
      Step s (ina226_read_shunt_voltage s mask meas).state
  | read_bus (s : HState) (mask : ℕ → ℕ) (meas : ℕ) :
      Step s (ina226_read_bus_voltage s mask meas).state
  | read_current (s : HState) (mask : ℕ → ℕ) (meas : ℕ) :
      Step s (ina226_read_current s mask meas).state
  | read_power (s : HState) (mask : ℕ → ℕ) (meas : ℕ) :
      Step s (ina226_read_power s mask meas).state

/-- Reachability through the driver's mode-setting and read operations. -/
def Reachable : HState → HState → Prop :=
  Relation.ReflTransGen Step

/-- The invariant of spec §3: `trigger_pending` is never true unless the
configured mode (low 3 bits of the configuration register) is one of the
three triggered variants — in particular never while the mode is
continuous (5, 6, 7) or power-down (0). -/
def TriggerInv (s : HState) : Prop :=
  s.trigger = true →
    (s.conf &&& 0x7 = INA226_MODE_SHUNT_VOLTAGE_TRIGGERED ∨
     s.conf &&& 0x7 = INA226_MODE_BUS_VOLTAGE_TRIGGERED ∨
     s.conf &&& 0x7 = INA226_MODE_SHUNT_BUS_VOLTAGE_TRIGGERED)

/-- Modelled from the spec (§4.2, "shunt voltage (mV) = raw_signed_16 /
400"): the shunt-voltage measurement range in millivolts, the span of the
signed 16-bit raw register at 2.5 µV per bit. -/
def shuntMeasRange (x : ℚ) : Prop :=
  -(32768 : ℚ) / 400 ≤ x ∧ x ≤ 32767 / 400

/-- Modelled from the spec (§4.2, "bus voltage (mV) = raw_unsigned_16 ×
1.25"): the bus-voltage measurement range in millivolts, the span of the
unsigned 16-bit raw register at 1.25 mV per bit. -/
def busMeasRange (x : ℚ) : Prop :=
  0 ≤ x ∧ x ≤ 65535 * 1.25

/-! ## Supporting lemmas -/

theorem testBit_false_of_lt_8 {m i : ℕ} (hm : m < 8) (hi : 3 ≤ i) :
    m.testBit i = false := by
  refine Nat.testBit_lt_two_pow (lt_of_lt_of_le hm ?_)
  calc (8 : ℕ) = 2 ^ 3 := by norm_num
    _ ≤ 2 ^ i := Nat.pow_le_pow_right (by norm_num) hi

theorem testBit_false_of_lt_65536 {m i : ℕ} (hm : m < 65536) (hi : 16 ≤ i) :
    m.testBit i = false := by
  refine Nat.testBit_lt_two_pow (lt_of_lt_of_le hm ?_)
  calc (65536 : ℕ) = 2 ^ 16 := by norm_num
    _ ≤ 2 ^ i := Nat.pow_le_pow_right (by norm_num) hi

/-- Reading a 3-bit field back out of the word the read-modify-write
produced: if the retained mask `M` clears the field's three bits, the
getter recovers the value that was put in. -/
theorem get_after_set (c v sh M : ℕ) (hv : v < 8)
    (hM : ∀ i, i < 3 → M.testBit (sh + i) = false) :
    (((c &&& M) ||| (v <<< sh)) >>> sh) &&& 7 = v := by
  apply Nat.eq_of_testBit_eq
  intro i
  rw [Nat.testBit_land, Nat.testBit_shiftRight, Nat.testBit_lor, Nat.testBit_land,
    Nat.testBit_shiftLeft]
  by_cases hi : i < 3
  · rw [hM i hi]
    have h1 : decide (sh ≤ sh + i) = true := by simp
    have h2 : (7 : ℕ).testBit i = true := by interval_cases i <;> decide
    have h3 : sh + i - sh = i := by omega
    simp [h1, h2, h3]
  · have h2 : (7 : ℕ).testBit i = false := testBit_false_of_lt_8 (by norm_num) (by omega)
    have h4 : v.testBit i = false := testBit_false_of_lt_8 hv (by omega)
    simp [h2, h4]

/-- A read-modify-write that clears only the 3-bit field at `sh` leaves
every bit outside the field unchanged. -/
theorem set_preserves (c v sh M i : ℕ) (hv : v < 8) (hc : c < 65536)
    (hsh : sh + 3 ≤ 16) (hM16 : M < 65536)
    (hM : ∀ j, j < 16 → ¬(sh ≤ j ∧ j < sh + 3) → M.testBit j = true)
    (hi : i < sh ∨ sh + 2 < i) :
    ((c &&& M) ||| (v <<< sh)).testBit i = c.testBit i := by
  rw [Nat.testBit_lor, Nat.testBit_land, Nat.testBit_shiftLeft]
  by_cases h16 : i < 16
  · rw [hM i h16 (by omega)]
    by_cases hshi : sh ≤ i
    · have hvb : v.testBit (i - sh) = false := testBit_false_of_lt_8 hv (by omega)
      simp [hvb]
    · have hd : decide (sh ≤ i) = false := by simp [hshi]
      simp [hd]
  · have h1 : c.testBit i = false := testBit_false_of_lt_65536 hc (by omega)
    have h2 : M.testBit i = false := testBit_false_of_lt_65536 hM16 (by omega)
    have h3 : v.testBit (i - sh) = false := testBit_false_of_lt_8 hv (by omega)
    simp [h1, h2, h3]

/-- The low three bits of a word whose mode field was cleared and replaced
are exactly the new mode value. -/
theorem mode_field_of_set (c m : ℕ) (hm : m < 8) :
    ((c &&& 0xFFF8) ||| m) &&& 0x7 = m := by
  have h : ((c &&& 0xFFF8) ||| (m <<< 0)) >>> 0 &&& 7 = m :=
    get_after_set c m 0 0xFFF8 hm (by decide)
  simpa using h

/-- The final `timeout` of the poll loop is positive whenever the loop is
not entered at the degenerate state `i = 0, timeout = 1`: with the budget
1000 the `timeout == 0` check after the loop can therefore never fire. -/
theorem pollLoop_timeout_pos (mask : ℕ → ℕ) :
    ∀ t k i, (i ≠ 0 ∨ t ≠ 1) → 0 < t → 0 < (pollLoop mask k i t).1 := by
  intro t
  induction t with
  | zero => exact fun k i _ ht => absurd ht (lt_irrefl 0)
  | succ t ih =>
    intro k i h ht
    by_cases hit : i < t + 1
    · by_cases hb : (mask k).testBit 3
      · simp [pollLoop, hit, hb]
      · have ht' : 0 < t := by
          rcases Nat.eq_zero_or_pos t with h0 | h0



          · subst h0
            interval_cases i
            · exact absurd rfl (h.resolve_right (by simp))
          · exact h0
        have := ih (k + 1) (i + 1) (Or.inl i.succ_ne_zero) ht'
        simpa [pollLoop, hit, hb] using this
    · simp [pollLoop, hit]

/-- The synchronisation prologue only ever ends in status 0 (proceed) or 4
(math overflow) when transport succeeds: the status-5 branch tests the
final `timeout` against 0, which `pollLoop_timeout_pos` rules out at
budget 1000. -/
theorem a_wait_status (tr : Bool) (mask : ℕ → ℕ) :
    (a_wait_ready tr mask).status = 0 ∨ (a_wait_ready tr mask).status = 4 := by
  unfold a_wait_ready
  by_cases h2 : (mask 0).testBit 2
  · simp [h2]
  · by_cases htr : tr
    · by_cases h3 : (mask 0).testBit 3
      · simp [h2, htr, h3]
      · have hp : 0 < (pollLoop mask 1 0 INA226_READ_TIMEOUT).1 :=
          pollLoop_timeout_pos mask INA226_READ_TIMEOUT 1 0
            (Or.inr (by norm_num [INA226_READ_TIMEOUT]))
            (by norm_num [INA226_READ_TIMEOUT])

        simp [h2, htr, h3, Nat.pos_iff_ne_zero.mp hp]
    · simp [h2, htr]

/-- The prologue reports `trigger = true` only if it started with
`trigger = true` (no read ever sets the pending flag). -/
theorem a_wait_trigger_true (tr : Bool) (mask : ℕ → ℕ)
    (h : (a_wait_ready tr mask).trigger = true) : tr = true := by
  by_cases htr : tr
  · exact htr
  · exfalso
    unfold a_wait_ready at h
    by_cases h2 : (mask 0).testBit 2 <;> simp [h2, htr] at h

/-- A prologue that proceeds (status 0) always leaves `trigger = false`. -/
theorem a_wait_status0_trigger (tr : Bool) (mask : ℕ → ℕ)
    (h : (a_wait_ready tr mask).status = 0) :
    (a_wait_ready tr mask).trigger = false := by
  unfold a_wait_ready at h ⊢
  by_cases h2 : (mask 0).testBit 2
  · simp [h2] at h
  · by_cases htr : tr
    · by_cases h3 : (mask 0).testBit 3
      · simp [h2, htr, h3]
      · by_cases hz : (pollLoop mask 1 0 INA226_READ_TIMEOUT).1 = 0
        · simp [h2, htr, h3, hz] at h
        · simp [h2, htr, h3, hz]
    · simp [h2, htr]

/-- With `trigger = false` the prologue does not poll and does not delay. -/
theorem a_wait_no_trigger (mask : ℕ → ℕ) :
    (a_wait_ready false mask).delays = 0 ∧ (a_wait_ready false mask).polls = 0 ∧
      (a_wait_ready false mask).trigger = false ∧
      ((mask 0).testBit 2 = false → (a_wait_ready false mask).status = 0) := by
  unfold a_wait_ready
  by_cases h2 : (mask 0).testBit 2 <;> simp [h2]

/-! ## C1 — triggered-read timeout -/

set_option maxRecDepth 10000

/-- C1 (code_bug): on an initialized handle with `trigger_pending` true and
transport succeeding, no measurement read can ever return the read-timeout
error 5 — the poll loop increments `i` while decrementing `timeout`, so
with budget 1000 it exits after 500 iterations with `timeout = 500` and
the `timeout == 0` check is dead code.  Concretely, when the
conversion-ready bit never becomes set (mask register always 0) the read
performs exactly 500 polls and 500 one-millisecond delays and then
returns success (status 0) with `trigger_pending` cleared, instead of the
documented read-timeout failure. -/
theorem c1_read_timeout_unreachable :
    (∀ (conf : ℕ) (r lsb : ℚ) (mask : ℕ → ℕ) (meas : ℕ),
      ((ina226_read_shunt_voltage ⟨true, conf, true, r, lsb⟩ mask meas).status = 0 ∨
        (ina226_read_shunt_voltage ⟨true, conf, true, r, lsb⟩ mask meas).status = 4) ∧
      ((ina226_read_bus_voltage ⟨true, conf, true, r, lsb⟩ mask meas).status = 0 ∨
        (ina226_read_bus_voltage ⟨true, conf, true, r, lsb⟩ mask meas).status = 4) ∧
      ((ina226_read_current ⟨true, conf, true, r, lsb⟩ mask meas).status = 0 ∨
        (ina226_read_current ⟨true, conf, true, r, lsb⟩ mask meas).status = 4) ∧
      ((ina226_read_power ⟨true, conf, true, r, lsb⟩ mask meas).status = 0 ∨
        (ina226_read_power ⟨true, conf, true, r, lsb⟩ mask meas).status = 4)) ∧
    (ina226_read_shunt_voltage ⟨true, 0, true, 0, 0⟩ (fun _ => 0) 0).status = 0 ∧
    (ina226_read_shunt_voltage ⟨true, 0, true, 0, 0⟩ (fun _ => 0) 0).state =
      ⟨true, 0, false, 0, 0⟩ ∧
    (ina226_read_shunt_voltage ⟨true, 0, true, 0, 0⟩ (fun _ => 0) 0).delays = 500 ∧
    (ina226_read_shunt_voltage ⟨true, 0, true, 0, 0⟩ (fun _ => 0) 0).polls = 500 := by
  constructor
  · intro conf r lsb mask meas
    refine ⟨?_, ?_, ?_, ?_⟩ <;>
      rcases a_wait_status true mask with h | h <;>
        simp [ina226_read_shunt_voltage, ina226_read_bus_voltage, ina226_read_current,
          ina226_read_power, h]
  · refine ⟨by decide, by decide, by decide, by decide⟩

/-! ## C2 — deinit and the lifecycle flag -/

/-- C2 counterexample: a successful `ina226_deinit` (status 0, transport
closed) does not make subsequent register operations fail with
not-initialized — a following `ina226_set_mode` succeeds with status 0
rather than returning 3, because the C function never clears
`handle->inited`. -/
theorem c2_deinit_keeps_inited_counterexample :
    (ina226_deinit ⟨true, 0x4127, false, 0, 0⟩).1 = 0 ∧
    (ina226_deinit ⟨true, 0x4127, false, 0, 0⟩).2.2 = true ∧
    (ina226_set_mode (ina226_deinit ⟨true, 0x4127, false, 0, 0⟩).2.1 7).1 = 0 ∧
    (ina226_set_mode (ina226_deinit ⟨true, 0x4127, false, 0, 0⟩).2.1 7).1 ≠ 3 := by
  decide

/-- C2 (amended): a successful `ina226_deinit` on an initialized handle
commands power-down (clears the 3-bit mode field of the configuration
register) and closes the transport, but it leaves the initialized flag
set, so every subsequent `ina226_set_mode` is still accepted (returns 0,
not the not-initialized error 3). -/
theorem c2_deinit_amended (s : HState) (hs : s.inited = true) :
    (ina226_deinit s).1 = 0 ∧
    (ina226_deinit s).2.1.conf = s.conf &&& 0xFFF8 ∧
    (ina226_deinit s).2.1.conf &&& 0x7 = INA226_MODE_POWER_DOWN ∧
    (ina226_deinit s).2.2 = true ∧
    (ina226_deinit s).2.1.inited = true ∧
    (∀ m : ℕ, (ina226_set_mode (ina226_deinit s).2.1 m).1 = 0) := by
  have hconf : s.conf &&& 0xFFF8 &&& 0x7 = 0 := by
    rw [Nat.land_assoc]
    have h70 : (0xFFF8 &&& 0x7 : ℕ) = 0 := by decide
    rw [h70]
    exact Nat.and_zero s.conf
  refine ⟨by simp [ina226_deinit, hs], by simp [ina226_deinit, hs], ?_, ?_, ?_, ?_⟩
  · simpa [ina226_deinit, hs, INA226_MODE_POWER_DOWN] using hconf
  · simp [ina226_deinit, hs]
  · simp [ina226_deinit, hs]
  · intro m
    simp [ina226_deinit, ina226_set_mode, hs]

/-- Witness for `c2_deinit_amended` at a concrete initialized handle. -/
theorem c2_deinit_amended_witness :
    (ina226_deinit ⟨true, 0x4127, false, 0, 0⟩).1 = 0 ∧
    (ina226_deinit ⟨true, 0x4127, false, 0, 0⟩).2.1.conf &&& 0x7 = INA226_MODE_POWER_DOWN ∧
    (ina226_deinit ⟨true, 0x4127, false, 0, 0⟩).2.1.inited = true :=
  ⟨(c2_deinit_amended ⟨true, 0x4127, false, 0, 0⟩ rfl).1,
    (c2_deinit_amended ⟨true, 0x4127, false, 0, 0⟩ rfl).2.2.1,
    (c2_deinit_amended ⟨true, 0x4127, false, 0, 0⟩ rfl).2.2.2.2.1⟩

/-! ## C3, C4 — the trigger/mode protocol -/

/-- The handle state a shunt-voltage read leaves behind: only `trigger` can
change, and it becomes whatever the synchronisation prologue reports. -/
theorem read_shunt_state_eq (s : HState) (mask : ℕ → ℕ) (meas : ℕ) :
    (ina226_read_shunt_voltage s mask meas).state =
      if s.inited then { s with trigger := (a_wait_ready s.trigger mask).trigger } else s := by
  by_cases hi : s.inited <;> by_cases hw : (a_wait_ready s.trigger mask).status = 0 <;>
    simp [ina226_read_shunt_voltage, hi, hw]

/-- Same for the bus-voltage read. -/
theorem read_bus_state_eq (s : HState) (mask : ℕ → ℕ) (meas : ℕ) :
    (ina226_read_bus_voltage s mask meas).state =
      if s.inited then { s with trigger := (a_wait_ready s.trigger mask).trigger } else s := by
  by_cases hi : s.inited <;> by_cases hw : (a_wait_ready s.trigger mask).status = 0 <;>
    simp [ina226_read_bus_voltage, hi, hw]

/-- Same for the current read. -/
theorem read_current_state_eq (s : HState) (mask : ℕ → ℕ) (meas : ℕ) :
    (ina226_read_current s mask meas).state =
      if s.inited then { s with trigger := (a_wait_ready s.trigger mask).trigger } else s := by
  by_cases hi : s.inited <;> by_cases hw : (a_wait_ready s.trigger mask).status = 0 <;>
    simp [ina226_read_current, hi, hw]

/-- Same for the power read. -/
theorem read_power_state_eq (s : HState) (mask : ℕ → ℕ) (meas : ℕ) :
    (ina226_read_power s mask meas).state =
      if s.inited then { s with trigger := (a_wait_ready s.trigger mask).trigger } else s := by
  by_cases hi : s.inited <;> by_cases hw : (a_wait_ready s.trigger mask).status = 0 <;>
    simp [ina226_read_power, hi, hw]

/-- A measurement read (which can only clear `trigger`, never raise it, and
leaves the configuration register alone) preserves the trigger/mode
invariant. -/
theorem trigger_inv_of_read (s b : HState) (mask : ℕ → ℕ) (ha : TriggerInv s)
    (hb : b = if s.inited then { s with trigger := (a_wait_ready s.trigger mask).trigger } else s) :
    TriggerInv b := by
  subst hb
  by_cases hi : s.inited
  · intro htr
    simp only [hi, if_true] at htr ⊢
    exact ha (a_wait_trigger_true s.trigger mask htr)
  · simpa [hi] using ha

/-- Every protocol step preserves the trigger/mode invariant. -/
theorem step_preserves_trigger_inv {a b : HState} (h : Step a b) (ha : TriggerInv a) :
    TriggerInv b := by
  cases h with
  | set_mode m hm =>
    by_cases hi : a.inited
    · intro htr
      simp only [ina226_set_mode, hi, if_true] at htr ⊢
      have hmode : m = 1 ∨ m = 2 ∨ m = 3 := by
        simpa [INA226_MODE_SHUNT_VOLTAGE_TRIGGERED, INA226_MODE_BUS_VOLTAGE_TRIGGERED,
          INA226_MODE_SHUNT_BUS_VOLTAGE_TRIGGERED, or_assoc] using htr
      have hfield := mode_field_of_set a.conf m hm
      simp only [INA226_MODE_SHUNT_VOLTAGE_TRIGGERED, INA226_MODE_BUS_VOLTAGE_TRIGGERED,
        INA226_MODE_SHUNT_BUS_VOLTAGE_TRIGGERED]
      rcases hmode with h1 | h1 | h1 <;> subst h1 <;> simp [hfield]
    · simpa [ina226_set_mode, hi] using ha
  | read_shunt mask meas =>
    exact trigger_inv_of_read a _ mask ha (read_shunt_state_eq a mask meas)
  | read_bus mask meas =>
    exact trigger_inv_of_read a _ mask ha (read_bus_state_eq a mask meas)
  | read_current mask meas =>
    exact trigger_inv_of_read a _ mask ha (read_current_state_eq a mask meas)
  | read_power mask meas =>
    exact trigger_inv_of_read a _ mask ha (read_power_state_eq a mask meas)

/-- The invariant holds in every state reachable from a freshly initialized
handle (`trigger = false`, as `ina226_init` leaves it). -/
theorem reachable_trigger_inv {s₀ s : HState} (h₀ : s₀.trigger = false)
    (hr : Reachable s₀ s) : TriggerInv s := by
  induction hr with
  | refl => intro h; rw [h₀] at h; cases h
  | tail _ hstep ih => exact step_preserves_trigger_inv hstep ih

/-- C3: a successful `ina226_set_mode` sets `trigger_pending` true exactly
when the selected mode is one of the three triggered variants; apart from
the mode field of the configuration register and the trigger flag it
changes nothing on the handle.  Consequently, in every state reachable
from a freshly initialized handle (`trigger_pending = false`) through
mode-setting and measurement-read operations, `trigger_pending` is never
true while the configured mode is anything but a triggered variant — in
particular never while it is continuous or power-down. -/
theorem c3_set_mode_trigger_invariant (s₀ s : HState) (m : ℕ) (hm : m < 8)
    (h₀ : s₀.trigger = false) (hr : Reachable s₀ s) :
    ((ina226_set_mode s m).1 = 0 →
      (((ina226_set_mode s m).2.trigger = true) ↔
        (m = INA226_MODE_SHUNT_VOLTAGE_TRIGGERED ∨
         m = INA226_MODE_BUS_VOLTAGE_TRIGGERED ∨
         m = INA226_MODE_SHUNT_BUS_VOLTAGE_TRIGGERED)) ∧
      (ina226_set_mode s m).2.conf &&& 0x7 = m ∧
      (ina226_set_mode s m).2.r = s.r ∧
      (ina226_set_mode s m).2.current_lsb = s.current_lsb ∧
      (ina226_set_mode s m).2.inited = s.inited) ∧
    TriggerInv s := by
  constructor
  · intro hsucc
    have hi : s.inited = true := by
      by_contra hni
      simp [ina226_set_mode, hni] at hsucc
    refine ⟨?_, ?_, ?_, ?_, ?_⟩
    · simp [ina226_set_mode, hi, or_assoc]
    · simpa [ina226_set_mode, hi] using mode_field_of_set s.conf m hm
    · simp [ina226_set_mode, hi]
    · simp [ina226_set_mode, hi]
    · simp [ina226_set_mode, hi]
  · exact reachable_trigger_inv h₀ hr

/-- Witness for `c3_set_mode_trigger_invariant`: the freshly initialized
handle itself, selecting the triggered shunt-voltage mode. -/
theorem c3_set_mode_trigger_invariant_witness :
    ((ina226_set_mode ⟨true, 0x4127, false, 1/250, 0⟩ 1).1 = 0 →
      (((ina226_set_mode ⟨true, 0x4127, false, 1/250, 0⟩ 1).2.trigger = true) ↔
        (1 = INA226_MODE_SHUNT_VOLTAGE_TRIGGERED ∨
         1 = INA226_MODE_BUS_VOLTAGE_TRIGGERED ∨
         1 = INA226_MODE_SHUNT_BUS_VOLTAGE_TRIGGERED)) ∧
      (ina226_set_mode ⟨true, 0x4127, false, 1/250, 0⟩ 1).2.conf &&& 0x7 = 1 ∧
      (ina226_set_mode ⟨true, 0x4127, false, 1/250, 0⟩ 1).2.r = (⟨true, 0x4127, false, 1/250, 0⟩ : HState).r ∧
      (ina226_set_mode ⟨true, 0x4127, false, 1/250, 0⟩ 1).2.current_lsb = (⟨true, 0x4127, false, 1/250, 0⟩ : HState).current_lsb ∧
      (ina226_set_mode ⟨true, 0x4127, false, 1/250, 0⟩ 1).2.inited = (⟨true, 0x4127, false, 1/250, 0⟩ : HState).inited) ∧
    TriggerInv ⟨true, 0x4127, false, 1/250, 0⟩ :=
  c3_set_mode_trigger_invariant ⟨true, 0x4127, false, 1/250, 0⟩ ⟨true, 0x4127, false, 1/250, 0⟩ 1
    (by norm_num) rfl Relation.ReflTransGen.refl

/-- C4: after `ina226_set_mode` selects a triggered variant the pending
flag is raised; the first measurement read that returns success clears it,
and a second read performed on the resulting handle does not enter the
poll loop at all — zero poll reads and zero millisecond delays — and, when
the overflow bit is clear, proceeds straight to the measurement register
(status 0 with the fresh raw value). -/
theorem c4_first_read_clears_trigger (s : HState) (m : ℕ) (mask mask' : ℕ → ℕ)
    (meas meas' : ℕ) (hs : s.inited = true)
    (hm : m = INA226_MODE_SHUNT_VOLTAGE_TRIGGERED ∨
      m = INA226_MODE_BUS_VOLTAGE_TRIGGERED ∨
      m = INA226_MODE_SHUNT_BUS_VOLTAGE_TRIGGERED) :
    (ina226_set_mode s m).2.trigger = true ∧
    ((ina226_read_shunt_voltage (ina226_set_mode s m).2 mask meas).status = 0 →
      (ina226_read_shunt_voltage (ina226_set_mode s m).2 mask meas).state.trigger = false ∧
      (ina226_read_shunt_voltage
        (ina226_read_shunt_voltage (ina226_set_mode s m).2 mask meas).state mask' meas').delays = 0 ∧
      (ina226_read_shunt_voltage
        (ina226_read_shunt_voltage (ina226_set_mode s m).2 mask meas).state mask' meas').polls = 0 ∧
      ((mask' 0).testBit 2 = false →
        (ina226_read_shunt_voltage
          (ina226_read_shunt_voltage (ina226_set_mode s m).2 mask meas).state mask' meas').status = 0 ∧
        (ina226_read_shunt_voltage
          (ina226_read_shunt_voltage (ina226_set_mode s m).2 mask meas).state mask' meas').raw = toInt16 meas')) := by
  have htrig : (ina226_set_mode s m).2.trigger = true := by
    rcases hm with h1 | h1 | h1 <;> subst h1 <;>
      simp [ina226_set_mode, hs, INA226_MODE_SHUNT_VOLTAGE_TRIGGERED,
        INA226_MODE_BUS_VOLTAGE_TRIGGERED, INA226_MODE_SHUNT_BUS_VOLTAGE_TRIGGERED]
  have hi1 : (ina226_set_mode s m).2.inited = true := by
    simp [ina226_set_mode, hs]
  refine ⟨htrig, fun h0 => ?_⟩
  set s₁ := (ina226_set_mode s m).2 with hs₁
  have hw0 : (a_wait_ready s₁.trigger mask).status = 0 := by
    by_contra hw
    simp [ina226_read_shunt_voltage, hi1, hw] at h0
  have hst : (ina226_read_shunt_voltage s₁ mask meas).state =
      { s₁ with trigger := (a_wait_ready s₁.trigger mask).trigger } := by
    rw [read_shunt_state_eq, if_pos hi1]
  have htrg0 : (ina226_read_shunt_voltage s₁ mask meas).state.trigger = false := by
    rw [hst]
    exact a_wait_status0_trigger s₁.trigger mask hw0
  have hi2 : (ina226_read_shunt_voltage s₁ mask meas).state.inited = true := by
    rw [hst]
    exact hi1
  set s₂ := (ina226_read_shunt_voltage s₁ mask meas).state with hs₂
  have hwn := a_wait_no_trigger mask'
  have htr₂ : s₂.trigger = false := htrg0
  refine ⟨htrg0, ?_, ?_, ?_⟩
  · by_cases hw' : (a_wait_ready false mask').status = 0 <;>
      simp [ina226_read_shunt_voltage, hi2, htr₂, hw', hwn.1]
  · by_cases hw' : (a_wait_ready false mask').status = 0 <;>
      simp [ina226_read_shunt_voltage, hi2, htr₂, hw', hwn.2.1]
  · intro hov
    have hwst : (a_wait_ready false mask').status = 0 := hwn.2.2.2 hov
    constructor
    · simp [ina226_read_shunt_voltage, hi2, htr₂, hwst]
    · simp [ina226_read_shunt_voltage, hi2, htr₂, hwst]

/-! ## C5, C6, C10 — calibration -/

/-- The calibration expression of the source is exactly 2048, and the
`uint16_t` cast maps it to itself. -/
theorem calibration_code_eval :
    castToUint16 ((0.00512 : ℚ) / (0.08192 / 2 ^ 15)) = some 2048 := by
  have h : (0.00512 : ℚ) / (0.08192 / 2 ^ 15) = 2048 := by norm_num
  rw [h]
  have hcond : (-1 : ℚ) < 2048 ∧ (2048 : ℚ) < 65536 := by norm_num
  have hfl : ⌊(2048 : ℚ)⌋ = 2048 := by norm_num
  simp [castToUint16, hcond, hfl]

/-- The resistance 0.004 Ω (= 1/250) is not caught by the degenerate
threshold of `ina226_calculate_calibration`. -/
theorem resistance_point004_ok :
    ¬(-(8796093 / 8796093022208 : ℚ) ≤ (1 / 250 : ℚ) ∧
      (1 / 250 : ℚ) ≤ 8796093 / 8796093022208) := by
  intro h
  exact absurd h.2 (by norm_num)

/-- C5 counterexample: the stored resistance r = 1e-6 is within ±1e-6 of
zero, yet `ina226_calculate_calibration` succeeds (status 0, not the
degenerate-resistance error 4): the C compares against the float literal
`0.000001f` = 8796093/2^43, which is strictly below 1e-6. -/
theorem c5_boundary_counterexample :
    (1 / 1000000 : ℚ) ≤ 1 / 1000000 ∧
    (ina226_calculate_calibration ⟨true, 0, false, 1 / 1000000, 0⟩).1 = 0 ∧
    (ina226_calculate_calibration ⟨true, 0, false, 1 / 1000000, 0⟩).1 ≠ 4 := by
  refine ⟨le_refl _, ?_, ?_⟩ <;>
    · unfold ina226_calculate_calibration
      norm_num

/-- C5 (amended): `ina226_calculate_calibration` on an initialized handle
fails with the degenerate-resistance error 4 exactly for stored resistance
within ±8796093/2^43 (≈ 9.99999997e-7, the exact value of the float
literal `0.000001f` the code compares against — slightly below the
spec's 1e-6), including r = 0, leaving the handle and the output untouched;
r = 0.004 succeeds. -/
theorem c5_degenerate_resistance_amended (s : HState) (hs : s.inited = true)
    (hr1 : -(8796093 / 8796093022208 : ℚ) ≤ s.r)
    (hr2 : s.r ≤ 8796093 / 8796093022208) :
    (ina226_calculate_calibration s).1 = 4 ∧
    (ina226_calculate_calibration s).2.1 = s ∧
    (ina226_calculate_calibration s).2.2 = none ∧
    (ina226_calculate_calibration ⟨true, 0, false, 1 / 250, 0⟩).1 = 0 := by
  have hc : -(8796093 / 8796093022208 : ℚ) ≤ s.r ∧ s.r ≤ 8796093 / 8796093022208 :=
    ⟨hr1, hr2⟩
  refine ⟨?_, ?_, ?_, ?_⟩
  · simp [ina226_calculate_calibration, hs, hc]
  · simp [ina226_calculate_calibration, hs, hc]
  · simp [ina226_calculate_calibration, hs, hc]
  · unfold ina226_calculate_calibration
    norm_num

/-- Witness for `c5_degenerate_resistance_amended` at r = 0. -/
theorem c5_degenerate_resistance_amended_witness :
    (ina226_calculate_calibration ⟨true, 0, false, 0, 0⟩).1 = 4 ∧
    (ina226_calculate_calibration ⟨true, 0, false, 0, 0⟩).2.2 = none :=
  have h := c5_degenerate_resistance_amended ⟨true, 0, false, 0, 0⟩ rfl
    (by norm_num) (by norm_num)
  ⟨h.1, h.2.2.1⟩

/-- C6: on success `ina226_calculate_calibration` stores
`current_lsb = 0.08192 / r / 2^15` and outputs the calibration code
0.00512 / (0.08192 / 2^15), which is exactly the integer 2048 (so the
rounding in the claim is vacuous); for r = 0.004 the stored `current_lsb`
satisfies `current_lsb × 25 × 1000 × 1 = ina226_power_convert_to_data`
applied to raw value 1 — the fixed power-to-current-LSB ratio 25 is
exactly honoured. -/
theorem c6_calibration_success_values (s : HState) (hs : s.inited = true)
    (hr : ¬(-(8796093 / 8796093022208 : ℚ) ≤ s.r ∧
      s.r ≤ 8796093 / 8796093022208)) :
    (ina226_calculate_calibration s).1 = 0 ∧
    (ina226_calculate_calibration s).2.1.current_lsb = 0.08192 / s.r / 2 ^ 15 ∧
    (ina226_calculate_calibration s).2.2 = some 2048 ∧
    (0.00512 : ℚ) / (0.08192 / 2 ^ 15) = 2048 ∧
    (ina226_calculate_calibration ⟨true, 0, false, 1 / 250, 0⟩).2.1.current_lsb * 25 * 1000 * 1 =
      ina226_power_convert_to_data
        (ina226_calculate_calibration ⟨true, 0, false, 1 / 250, 0⟩).2.1.current_lsb 1 := by
  refine ⟨?_, ?_, ?_, by norm_num, ?_⟩
  · simp [ina226_calculate_calibration, hs, hr]
  · simp [ina226_calculate_calibration, hs, hr]
  · simp [ina226_calculate_calibration, hs, hr, calibration_code_eval]
  · unfold ina226_calculate_calibration ina226_power_convert_to_data
    norm_num

/-- Witness for `c6_calibration_success_values` at r = 0.004. -/
theorem c6_calibration_success_values_witness :
    (ina226_calculate_calibration ⟨true, 0, false, 1 / 250, 0⟩).1 = 0 ∧
    (ina226_calculate_calibration ⟨true, 0, false, 1 / 250, 0⟩).2.2 = some 2048 :=
  have h := c6_calibration_success_values ⟨true, 0, false, 1 / 250, 0⟩ rfl
    resistance_point004_ok
  ⟨h.1, h.2.2.1⟩

/-- C10: whenever `ina226_calculate_calibration` succeeds, the value
destined for the device's calibration register is the constant 2048 =
trunc(0.00512 / (0.08192 / 2^15)) — it does not depend on the resistance
at all; only the handle's `current_lsb` does. -/
theorem c10_calibration_code_constant (s : HState)
    (h0 : (ina226_calculate_calibration s).1 = 0) :
    (ina226_calculate_calibration s).2.2 = some 2048 ∧
    (0.00512 : ℚ) / (0.08192 / 2 ^ 15) = 2048 := by
  refine ⟨?_, by norm_num⟩
  by_cases hi : s.inited
  · by_cases hc : -(8796093 / 8796093022208 : ℚ) ≤ s.r ∧ s.r ≤ 8796093 / 8796093022208
    · simp [ina226_calculate_calibration, hi, hc] at h0
    · simp [ina226_calculate_calibration, hi, hc, calibration_code_eval]
  · simp [ina226_calculate_calibration, hi] at h0

/-- Witness for `c10_calibration_code_constant` at r = 0.004. -/
theorem c10_calibration_code_constant_witness :
    (ina226_calculate_calibration ⟨true, 0, false, 1 / 250, 0⟩).2.2 = some 2048 :=
  (c10_calibration_code_constant ⟨true, 0, false, 1 / 250, 0⟩
    (by unfold ina226_calculate_calibration; norm_num)).1

/-- Witness for `c4_first_read_clears_trigger`: trigger the shunt mode,
read once with conversion-ready immediately set, read again. -/
theorem c4_first_read_clears_trigger_witness :
    (ina226_set_mode ⟨true, 0x4127, false, 1/250, 0⟩ 1).2.trigger = true ∧
    (ina226_read_shunt_voltage
      (ina226_read_shunt_voltage (ina226_set_mode ⟨true, 0x4127, false, 1/250, 0⟩ 1).2
        (fun _ => 8) 400).state (fun _ => 0) 7).delays = 0 ∧
    (ina226_read_shunt_voltage
      (ina226_read_shunt_voltage (ina226_set_mode ⟨true, 0x4127, false, 1/250, 0⟩ 1).2
        (fun _ => 8) 400).state (fun _ => 0) 7).status = 0 :=
  have h := c4_first_read_clears_trigger ⟨true, 0x4127, false, 1/250, 0⟩ 1
    (fun _ => 8) (fun _ => 0) 400 7 rfl (Or.inl rfl)
  have h2 := h.2 (by decide)
  ⟨h.1, h2.2.1, (h2.2.2.2 (by decide)).1⟩

/-! ## C7 — alert dispatch priority -/

/-- C7: for every status/mask register value, `ina226_irq_handler`
dispatches at most one callback; and whenever the alert-function bit
(bit 4) is set together with at least one alert-condition bit, the single
dispatched callback is the highest-priority active condition — the
maximum of the active bits, since the priority order shunt-over (15) >
shunt-under (14) > bus-over (13) > bus-under (12) > power-over-limit (11)
is the descending bit order. -/
theorem c7_irq_single_highest_priority (prev : ℕ) :
    (ina226_irq_handler prev).length ≤ 1 ∧
    (prev.testBit 4 = true → activeAlerts prev ≠ [] →
      ina226_irq_handler prev = [(activeAlerts prev).foldr max 0]) := by
  by_cases h4 : prev.testBit 4
  · by_cases h15 : prev.testBit 15 <;> by_cases h14 : prev.testBit 14 <;>
      by_cases h13 : prev.testBit 13 <;> by_cases h12 : prev.testBit 12 <;>
        by_cases h11 : prev.testBit 11 <;>
          simp [ina226_irq_handler, activeAlerts, alertPriority, h4, h15, h14, h13,
            h12, h11, INA226_STATUS_SHUNT_VOLTAGE_OVER_VOLTAGE,
            INA226_STATUS_SHUNT_VOLTAGE_UNDER_VOLTAGE,
            INA226_STATUS_BUS_VOLTAGE_OVER_VOLTAGE,
            INA226_STATUS_BUS_VOLTAGE_UNDER_VOLTAGE,
            INA226_STATUS_POWER_OVER_LIMIT]
  · simp [ina226_irq_handler, h4]

/-! ## C8 — configuration-codec round trip -/

/-- C8: for every valid 3-bit enum value and every 16-bit configuration
register value, a set followed by a get returns the value for each of the
averaging (bits 9-11), bus-conversion-time (bits 6-8) and
shunt-conversion-time (bits 3-5) fields, and the read-modify-write leaves
every register bit outside the written field unchanged. -/
theorem c8_config_field_roundtrip (c v i : ℕ) (hc : c < 65536) (hv : v < 8) :
    (ina226_get_average_mode (ina226_set_average_mode c v) = v ∧
      ((i < 9 ∨ 11 < i) → (ina226_set_average_mode c v).testBit i = c.testBit i)) ∧
    (ina226_get_bus_voltage_conversion_time (ina226_set_bus_voltage_conversion_time c v) = v ∧
      ((i < 6 ∨ 8 < i) → (ina226_set_bus_voltage_conversion_time c v).testBit i = c.testBit i)) ∧
    (ina226_get_shunt_voltage_conversion_time (ina226_set_shunt_voltage_conversion_time c v) = v ∧
      ((i < 3 ∨ 5 < i) → (ina226_set_shunt_voltage_conversion_time c v).testBit i = c.testBit i)) := by
  refine ⟨⟨?_, ?_⟩, ⟨?_, ?_⟩, ⟨?_, ?_⟩⟩
  · exact get_after_set c v 9 0xF1FF hv (by decide)
  · intro hi
    exact set_preserves c v 9 0xF1FF i hv hc (by norm_num) (by norm_num) (by decide) hi
  · exact get_after_set c v 6 0xFE3F hv (by decide)
  · intro hi
    exact set_preserves c v 6 0xFE3F i hv hc (by norm_num) (by norm_num) (by decide) hi
  · exact get_after_set c v 3 0xFFC7 hv (by decide)
  · intro hi
    exact set_preserves c v 3 0xFFC7 i hv hc (by norm_num) (by norm_num) (by decide) hi

/-- Witness for `c8_config_field_roundtrip`: the device's power-on default
configuration 0x4127, field value 5, spectator bit 0. -/
theorem c8_config_field_roundtrip_witness :
    ina226_get_average_mode (ina226_set_average_mode 0x4127 5) = 5 ∧
    (ina226_set_average_mode 0x4127 5).testBit 0 = (0x4127 : ℕ).testBit 0 :=
  ⟨(c8_config_field_roundtrip 0x4127 5 0 (by norm_num) (by norm_num)).1.1,
    (c8_config_field_roundtrip 0x4127 5 0 (by norm_num) (by norm_num)).1.2
      (Or.inl (by norm_num))⟩

/-! ## C9 — unit-conversion round trips -/

/-- C9 counterexample: x = -1 mV is inside the shunt measurement range
(the signed raw format reaches -81.92 mV), but the inverse conversion
`(uint16_t)(mV * 400.0f)` casts the negative value -400 to an unsigned
16-bit integer — undefined behaviour in C, `none` in the model — so the
claimed round trip does not exist for negative shunt voltages. -/
theorem c9_negative_shunt_counterexample :
    shuntMeasRange (-1) ∧
    ina226_shunt_voltage_convert_to_register (-1) = none := by
  refine ⟨⟨by norm_num, by norm_num⟩, ?_⟩
  unfold ina226_shunt_voltage_convert_to_register castToUint16
  norm_num

/-- C9 (amended): for every non-negative value in the measurement range,
converting to a raw register code and back differs from the input by less
than one resolution step — 1/400 mV (2.5 µV) for the shunt pair and
1.25 mV for the bus pair.  (For negative shunt voltages the inverse
conversion is an undefined negative-to-unsigned cast, so the guarantee is
restricted to non-negative inputs.) -/
theorem c9_roundtrip_amended (x y : ℚ) (hx0 : 0 ≤ x) (hx : x ≤ 32767 / 400)
    (hy0 : 0 ≤ y) (hy : y ≤ 65535 * 1.25) :
    (∃ rg : ℕ, ina226_shunt_voltage_convert_to_register x = some rg ∧
      |ina226_shunt_voltage_convert_to_data rg - x| < 1 / 400) ∧
    (∃ rg : ℕ, ina226_bus_voltage_convert_to_register y = some rg ∧
      |ina226_bus_voltage_convert_to_data rg - y| < 1.25) := by
  constructor
  · have h1 : (-1 : ℚ) < x * 400 := by nlinarith
    have h2 : x * 400 < 65536 := by nlinarith
    have hfl0 : (0 : ℤ) ≤ ⌊x * 400⌋ := Int.floor_nonneg.mpr (by positivity)
    refine ⟨Int.toNat ⌊x * 400⌋, ?_, ?_⟩
    · unfold ina226_shunt_voltage_convert_to_register castToUint16
      rw [if_pos ⟨h1, h2⟩]
    · unfold ina226_shunt_voltage_convert_to_data
      have hcast : ((Int.toNat ⌊x * 400⌋ : ℕ) : ℚ) = ((⌊x * 400⌋ : ℤ) : ℚ) := by
        exact_mod_cast congrArg (fun z : ℤ => (z : ℚ)) (Int.toNat_of_nonneg hfl0)
      rw [hcast, abs_lt]
      have hle : ((⌊x * 400⌋ : ℤ) : ℚ) ≤ x * 400 := Int.floor_le (x * 400)
      have hlt : x * 400 < ((⌊x * 400⌋ : ℤ) : ℚ) + 1 := Int.lt_floor_add_one (x * 400)
      constructor <;> linarith
  · have h1 : (-1 : ℚ) < y / 1.25 := by
      have hpos : (0 : ℚ) ≤ y / 1.25 := by positivity
      linarith
    have h2 : y / 1.25 < 65536 := by
      rw [div_lt_iff₀ (by norm_num : (0 : ℚ) < 1.25)]
      nlinarith
    have hfl0 : (0 : ℤ) ≤ ⌊y / 1.25⌋ := Int.floor_nonneg.mpr (by positivity)
    refine ⟨Int.toNat ⌊y / 1.25⌋, ?_, ?_⟩
    · unfold ina226_bus_voltage_convert_to_register castToUint16
      rw [if_pos ⟨h1, h2⟩]
    · unfold ina226_bus_voltage_convert_to_data
      have hcast : ((Int.toNat ⌊y / 1.25⌋ : ℕ) : ℚ) = ((⌊y / 1.25⌋ : ℤ) : ℚ) := by
        exact_mod_cast congrArg (fun z : ℤ => (z : ℚ)) (Int.toNat_of_nonneg hfl0)
      rw [hcast, abs_lt]
      have hle : ((⌊y / 1.25⌋ : ℤ) : ℚ) ≤ y / 1.25 := Int.floor_le (y / 1.25)
      have hlt : y / 1.25 < ((⌊y / 1.25⌋ : ℤ) : ℚ) + 1 := Int.lt_floor_add_one (y / 1.25)
      have hy' : (y / 1.25) * 1.25 = y := by field_simp
      have hle' : ((⌊y / 1.25⌋ : ℤ) : ℚ) * 1.25 ≤ y := by nlinarith
      have hlt' : y < (((⌊y / 1.25⌋ : ℤ) : ℚ) + 1) * 1.25 := by nlinarith
      constructor <;> linarith
  
/-- Witness for `c9_roundtrip_amended`: x = 1 mV shunt, y = 5000 mV bus. -/
theorem c9_roundtrip_amended_witness :
    (∃ rg : ℕ, ina226_shunt_voltage_convert_to_register 1 = some rg ∧
      |ina226_shunt_voltage_convert_to_data rg - 1| < 1 / 400) ∧
    (∃ rg : ℕ, ina226_bus_voltage_convert_to_register 5000 = some rg ∧
      |ina226_bus_voltage_convert_to_data rg - 5000| < 1.25) :=
  c9_roundtrip_amended 1 5000 (by norm_num) (by norm_num) (by norm_num) (by norm_num)

end INA226
